import Mathlib

/-!
# Verification of the batch image cropper (src/app.py)

Shallow embedding of the core pipeline of the Streamlit batch image
cropper: geometry validation (app.py lines 114 and 126), the per-item
rotate/crop transform (lines 141-145), format resolution (lines 152-153),
output naming via os.path.splitext (lines 158-162), and the batch loop
with its try/except partial-failure handling (lines 133-168).

Python strings are modelled as `List Char`.  PIL images are modelled as a
width, a height and a row-major pixel grid; pixel values are abstracted to
`Nat` (the claims under study never inspect colour structure).  PIL's
`Image.crop` is modelled faithfully to its documented semantics: the
output always has size (right-left, bottom-top) and regions outside the
source image are filled with 0 — it never raises for an out-of-bounds
box.  PIL's `Image.rotate(angle, expand=True)` involves floating-point
trigonometry, so it is kept abstract as a parameter `rot`; what the
source code determines — that it is invoked with the negated angle and
expand set, only when the angle is nonzero, and before the crop — is
captured both denotationally and by an operation trace.
-/

set_option autoImplicit false

namespace Crop

/-- A decoded raster image (PIL `Image`): dimensions plus a row-major
pixel grid.  Pixel values are abstracted to `Nat`. -/
structure PImage where
  width : Nat
  height : Nat
  data : List (List Nat)
deriving DecidableEq, Repr

/-- Read a pixel; coordinates outside the image read as 0.  This is the
fill value PIL uses when `crop` reaches outside the source image. -/
def getPx (img : PImage) (x y : Int) : Nat :=
  if 0 ≤ x ∧ x < (img.width : Int) ∧ 0 ≤ y ∧ y < (img.height : Int) then
    (((img.data[y.toNat]?).getD [])[x.toNat]?).getD 0
  else 0

/-- The crop rectangle: four integers (left, top, right, bottom), as
assembled at app.py lines 79-83 / line 100. -/
structure Rect where
  left : Int
  top : Int
  right : Int
  bottom : Int
deriving DecidableEq, Repr

/-- Geometry Validator, app.py line 114:
`rect[2] > rect[0] and rect[3] > rect[1]`.  It returns a boolean and does
not modify the rectangle. -/
def validRect (r : Rect) : Bool :=
  decide (r.right > r.left) && decide (r.bottom > r.top)

/-- PIL `Image.crop(rect)` (app.py line 145): the result has size
(right-left, bottom-top); pixels are copied from the source where the box
overlaps it and are 0 elsewhere (PIL pads out-of-bounds regions; it does
not raise and does not clamp). -/
def pilCrop (img : PImage) (r : Rect) : PImage :=
  { width := (r.right - r.left).toNat
    height := (r.bottom - r.top).toNat
    data := (List.range (r.bottom - r.top).toNat).map fun (y : Nat) =>
      (List.range (r.right - r.left).toNat).map fun (x : Nat) =>
        getPx img (r.left + (x : Int)) (r.top + (y : Int)) }

/-- Python `str.split(sep)` for a single-character separator, on the
character list, with an accumulator for the current field. -/
def pySplitAux (sep : Char) : List Char → List Char → List (List Char)
  | [], cur => [cur.reverse]
  | c :: cs, cur =>
    if c = sep then cur.reverse :: pySplitAux sep cs []
    else pySplitAux sep cs (c :: cur)

/-- Python `s.split(sep)` for a one-character separator. -/
def pySplit (sep : Char) (s : List Char) : List (List Char) :=
  pySplitAux sep s []

/-- Python `str.upper()` restricted to ASCII, which is all the code feeds
it (declared media types). -/
def pyUpper (s : List Char) : List Char :=
  s.map Char.toUpper

/-- Format Resolver, app.py lines 152-153:
`fmt = file.type.split('/')[-1].upper() if file.type else 'PNG'` followed
by `if fmt == 'JPG': fmt = 'JPEG'`.  A `none` declared type models Python
`None`; the empty string is falsy in Python, so both fall to the PNG
default. -/
def resolveFormat (t : Option (List Char)) : List Char :=
  match t with
  | none => "PNG".data
  | some s =>
    if s = [] then "PNG".data
    else
      let fmt := pyUpper ((pySplit '/' s).getLastD [])
      if fmt = "JPG".data then "JPEG".data else fmt

/-- Index of the last occurrence of a character, or `none`
(Python `str.rfind`, with -1 mapped to `none`). -/
def rfindAux (c : Char) : List Char → Nat → Option Nat → Option Nat
  | [], _, acc => acc
  | x :: xs, i, acc =>
    rfindAux c xs (i + 1) (if x = c then some i else acc)

/-- Python `s.rfind(c)` as an optional index. -/
def rfind (c : Char) (s : List Char) : Option Nat :=
  rfindAux c s 0 none

/-- `os.path.splitext` (app.py line 158), following CPython
`genericpath._splitext` with sep `/` and extsep `.`: split at the last
dot, unless every character of the basename before that dot is itself a
dot (leading dots of the basename never start an extension). -/
def splitext (p : List Char) : List Char × List Char :=
  let sepIndex : Int := match rfind '/' p with | some i => (i : Int) | none => -1
  let dotIndex : Int := match rfind '.' p with | some i => (i : Int) | none => -1
  if sepIndex < dotIndex then
    if ((p.take dotIndex.toNat).drop (sepIndex + 1).toNat).any (fun c => c ≠ '.') then
      (p.take dotIndex.toNat, p.drop dotIndex.toNat)
    else (p, [])
  else (p, [])

/-- Output entry name, app.py lines 158-162:
`filename, ext = os.path.splitext(file.name)` then the zip entry is
written as filename ++ "_Cropped" ++ ext. -/
def outName (n : List Char) : List Char :=
  (splitext n).1 ++ "_Cropped".data ++ (splitext n).2

/-- One uploaded file as the batch loop sees it: its `name`, its declared
media `type` (Python `None` modelled as `none`), and the result of
decoding its bytes — `Image.open` (app.py line 138) either yields an
image or raises, so the decode outcome is carried as an `Option`. -/
structure UploadedFile where
  name : List Char
  type : Option (List Char)
  content : Option PImage
deriving DecidableEq, Repr

/-- One entry written into the zip archive (app.py line 162): its entry
name, the encoding format passed to `save`, and the transformed image. -/
structure ArchiveEntry where
  name : List Char
  fmt : List Char
  img : PImage
deriving DecidableEq, Repr

/-- Transform Engine applied to one image (app.py lines 141-145): rotate
by the negated angle with canvas expansion when the angle is nonzero,
then crop to the shared rectangle.  `rot a img` stands for PIL
`img.rotate(a, expand=True)`, kept abstract because its exact output
involves floating-point trigonometry. -/
def applyTransform (rot : Int → PImage → PImage) (angle : Int) (r : Rect)
    (img : PImage) : PImage :=
  pilCrop (if angle ≠ 0 then rot (-angle) img else img) r

/-- The primitive image operations the per-item pipeline can invoke. -/
inductive PrimOp where
  | rotateOp (angle : Int) (expand : Bool)
  | cropOp (r : Rect)
deriving DecidableEq, Repr

/-- Operation trace of the Transform Engine (app.py lines 141-145): when
the angle is nonzero the code calls `rotate(-angle, expand=True)` and
then `crop(rect)`; when the angle is zero it only calls `crop(rect)`. -/
def transformTrace (angle : Int) (r : Rect) : List PrimOp :=
  (if angle ≠ 0 then [PrimOp.rotateOp (-angle) true] else []) ++ [PrimOp.cropOp r]

/-- The body of one iteration of the batch loop (app.py lines 136-165):
decode, rotate/crop, resolve the format, encode, and name the entry.  A
decode failure raises inside the `try`, is caught by the bare `except`,
and yields no entry. -/
def processItem (rot : Int → PImage → PImage) (angle : Int) (r : Rect)
    (f : UploadedFile) : Option ArchiveEntry :=
  match f.content with
  | none => none
  | some img =>
    some { name := outName f.name
           fmt := resolveFormat f.type
           img := applyTransform rot angle r img }

/-- The error record a failed item leaves behind: the `except` branch
(app.py line 165) prints a message keyed by the failed item's name; the
record is modelled by that key. -/
def failKey (rot : Int → PImage → PImage) (angle : Int) (r : Rect)
    (f : UploadedFile) : Option (List Char) :=
  match processItem rot angle r f with
  | none => some f.name
  | some _ => none

/-- One step of the batch loop's state: append the produced entry to the
zip (`zf.writestr`, which appends even under a duplicate name), or append
the error record. -/
def batchStep (rot : Int → PImage → PImage) (angle : Int) (r : Rect)
    (st : List ArchiveEntry × List (List Char)) (f : UploadedFile) :
    List ArchiveEntry × List (List Char) :=
  match processItem rot angle r f with
  | some e => (st.1 ++ [e], st.2)
  | none => (st.1, st.2 ++ [f.name])

/-- The batch loop (app.py lines 133-168) as explicit state passing over
the list of uploaded files: it returns the archive entries in job order
together with the recorded per-item error keys. -/
def runBatch (rot : Int → PImage → PImage) (angle : Int) (r : Rect)
    (files : List UploadedFile) : List ArchiveEntry × List (List Char) :=
  files.foldl (batchStep rot angle r) ([], [])

/-- The end-of-run user-visible status banner (app.py line 170):
unconditionally the text Processing Complete, independent of the entries
produced and of the errors recorded. -/
def runSummary : List Char :=
  "Processing Complete!".data

/-- Outcome of pressing the crop-all button. -/
inductive BatchOutcome where
  | invalidRect
  | completed (entries : List ArchiveEntry) (errors : List (List Char))
deriving DecidableEq, Repr

/-- The crop-all button handler (app.py lines 124-168): re-check the
rectangle (`rect[2] <= rect[0] or rect[3] <= rect[1]`, line 126) and show
an error without running the loop if it fails; otherwise run the batch
loop. -/
def cropAll (rot : Int → PImage → PImage) (angle : Int) (r : Rect)
    (files : List UploadedFile) : BatchOutcome :=
  if r.right ≤ r.left ∨ r.bottom ≤ r.top then BatchOutcome.invalidRect
  else
    BatchOutcome.completed (runBatch rot angle r files).1 (runBatch rot angle r files).2

/-! ### Concrete inputs used to instantiate the theorems -/

/-- A stand-in rotation primitive for concrete instantiations; the
instantiations below all use angle 0, where the code never invokes it. -/
def demoRot : Int → PImage → PImage := fun _ img => img

/-- A 100x100 all-zero image. -/
def img100 : PImage :=
  { width := 100, height := 100
    data := (List.range 100).map fun _ => List.replicate 100 0 }

/-- A 2x2 image with four distinct pixels. -/
def img2x2 : PImage := { width := 2, height := 2, data := [[1, 2], [3, 4]] }

/-- Three decodable 100x100 PNG uploads. -/
def fileA : UploadedFile :=
  { name := "a.png".data, type := some "image/png".data, content := some img100 }

def fileB : UploadedFile :=
  { name := "b.png".data, type := some "image/png".data, content := some img100 }

def fileC : UploadedFile :=
  { name := "c.png".data, type := some "image/png".data, content := some img100 }

/-- An upload whose bytes do not decode (`Image.open` raises). -/
def fileBad : UploadedFile :=
  { name := "b2.png".data, type := some "image/png".data, content := none }

/-- A decodable upload holding the small 2x2 image. -/
def fileSmall : UploadedFile :=
  { name := "small.png".data, type := some "image/png".data, content := some img2x2 }

/-- Two distinct uploads sharing one filename. -/
def fileDup1 : UploadedFile :=
  { name := "dup.png".data, type := some "image/png".data, content := some img100 }

def fileDup2 : UploadedFile :=
  { name := "dup.png".data, type := some "image/png".data, content := some img2x2 }

/-- The shared rectangle of the end-to-end example: (10,10,60,60). -/
def rect5060 : Rect := { left := 10, top := 10, right := 60, bottom := 60 }

/-- A rectangle exceeding the bounds of the 2x2 image. -/
def rectBig : Rect := { left := 0, top := 0, right := 10, bottom := 10 }

end Crop

namespace Crop

/-! ## Helper lemmas -/

/-- Splitting a separator-free string yields a single field. -/
theorem pySplitAux_no_sep (sep : Char) (b : List Char) (hb : sep ∉ b) :
    ∀ cur : List Char, pySplitAux sep b cur = [cur.reverse ++ b] := by
  induction b with
  | nil => intro cur; simp [pySplitAux]
  | cons c cs ih =>
    intro cur
    have hc : ¬(c = sep) := fun h => hb (h ▸ List.mem_cons_self c cs)
    rw [pySplitAux, if_neg hc, ih (fun h => hb (List.mem_cons_of_mem c h))]
    simp

/-- The last field of a split is the text after the last separator. -/
theorem pySplitAux_getLastD (sep : Char) (b : List Char) (hb : sep ∉ b) :
    ∀ (xs cur d : List Char),
      (pySplitAux sep (xs ++ sep :: b) cur).getLastD d = b := by
  intro xs
  induction xs with
  | nil =>
    intro cur d
    rw [List.nil_append, pySplitAux, if_pos rfl, pySplitAux_no_sep sep b hb []]
    simp
  | cons x xs ih =>
    intro cur d
    by_cases hx : x = sep
    · subst hx
      rw [List.cons_append, pySplitAux, if_pos rfl, List.getLastD_cons]
      exact ih [] cur.reverse
    · rw [List.cons_append, pySplitAux, if_neg hx]
      exact ih (x :: cur) d

/-- General form of the Format Resolver on a media type with a subtype
free of slashes. -/
theorem resolveFormat_general (a b : List Char) (hb : '/' ∉ b) :
    resolveFormat (some (a ++ '/' :: b)) =
      (if pyUpper b = "JPG".data then "JPEG".data else pyUpper b) := by
  have hne : ¬(a ++ '/' :: b = ([] : List Char)) := by simp
  rw [resolveFormat, if_neg hne]
  rw [pySplit, pySplitAux_getLastD '/' b hb a []]

/-- The batch loop's fold, decomposed over an arbitrary starting state. -/
theorem foldl_batchStep (rot : Int → PImage → PImage) (angle : Int) (r : Rect) :
    ∀ (files : List UploadedFile) (es : List ArchiveEntry) (errs : List (List Char)),
      files.foldl (batchStep rot angle r) (es, errs) =
        (es ++ files.filterMap (processItem rot angle r),
         errs ++ files.filterMap (failKey rot angle r)) := by
  intro files
  induction files with
  | nil => intro es errs; simp
  | cons f fs ih =>
    intro es errs
    rw [List.foldl_cons]
    cases hf : processItem rot angle r f with
    | some e =>
      have hk : failKey rot angle r f = none := by rw [failKey, hf]
      have hstep : batchStep rot angle r (es, errs) f = (es ++ [e], errs) := by
        rw [batchStep, hf]
      rw [hstep, ih]
      simp [List.filterMap_cons, hf, hk]
    | none =>
      have hk : failKey rot angle r f = some f.name := by rw [failKey, hf]
      have hstep : batchStep rot angle r (es, errs) f = (es, errs ++ [f.name]) := by
        rw [batchStep, hf]
      rw [hstep, ih]
      simp [List.filterMap_cons, hf, hk]

/-- The batch loop computes, in job order, the successes and the failure
records as two independent pure maps over the input list. -/
theorem runBatch_decomp (rot : Int → PImage → PImage) (angle : Int) (r : Rect)
    (files : List UploadedFile) :
    runBatch rot angle r files =
      (files.filterMap (processItem rot angle r),
       files.filterMap (failKey rot angle r)) := by
  rw [runBatch, foldl_batchStep]
  simp

/-- Every item ends up either as an archive entry or as an error record. -/
theorem entries_add_errors_length (rot : Int → PImage → PImage) (angle : Int)
    (r : Rect) :
    ∀ files : List UploadedFile,
      (files.filterMap (processItem rot angle r)).length +
        (files.filterMap (failKey rot angle r)).length = files.length := by
  intro files
  induction files with
  | nil => simp
  | cons f fs ih =>
    cases hf : processItem rot angle r f with
    | some e =>
      have hk : failKey rot angle r f = none := by rw [failKey, hf]
      simp only [List.filterMap_cons, hf, hk, List.length_cons, List.length]
      omega
    | none =>
      have hk : failKey rot angle r f = some f.name := by rw [failKey, hf]
      simp only [List.filterMap_cons, hf, hk, List.length_cons, List.length]
      omega

/-- A pixel of the cropped image, read inside the crop bounds, is the
source pixel offset by the rectangle's top-left corner (which is 0 when
that source coordinate lies outside the source image — the padding). -/
theorem getPx_pilCrop (img : PImage) (r : Rect) (x y : Int) (hx0 : 0 ≤ x)
    (hx : x < r.right - r.left) (hy0 : 0 ≤ y) (hy : y < r.bottom - r.top) :
    getPx (pilCrop img r) x y = getPx img (r.left + x) (r.top + y) := by
  have hxw : x.toNat < (r.right - r.left).toNat := by omega
  have hyh : y.toNat < (r.bottom - r.top).toNat := by omega
  have hcond : 0 ≤ x ∧ x < (((r.right - r.left).toNat : Nat) : Int) ∧ 0 ≤ y ∧
      y < (((r.bottom - r.top).toNat : Nat) : Int) := ⟨hx0, by omega, hy0, by omega⟩
  rw [show getPx (pilCrop img r) x y =
      ((((pilCrop img r).data[y.toNat]?).getD [])[x.toNat]?).getD 0 from by
    rw [getPx, if_pos]; exact hcond]
  show ((((List.range (r.bottom - r.top).toNat).map fun (yy : Nat) =>
      (List.range (r.right - r.left).toNat).map fun (xx : Nat) =>
        getPx img (r.left + (xx : Int)) (r.top + (yy : Int)))[y.toNat]?).getD
      [])[x.toNat]?.getD 0 = getPx img (r.left + x) (r.top + y)
  rw [List.getElem?_map]
  simp only [List.getElem?_range hyh, Option.map_some', Option.getD_some]
  rw [List.getElem?_map]
  simp only [List.getElem?_range hxw, Option.map_some', Option.getD_some,
    Int.toNat_of_nonneg hx0, Int.toNat_of_nonneg hy0]

/-- The Geometry Validator accepts exactly the well-ordered rectangles. -/
theorem validRect_true_iff (r : Rect) :
    validRect r = true ↔ (r.left < r.right ∧ r.top < r.bottom) := by
  simp [validRect]

/-- The Geometry Validator rejects exactly the degenerate rectangles that
the pre-batch check (app.py line 126) also rejects. -/
theorem validRect_false_iff (r : Rect) :
    validRect r = false ↔ (r.right ≤ r.left ∨ r.bottom ≤ r.top) := by
  simp [validRect]
  omega

end Crop

namespace Crop

/-- When every item of a batch decodes, the successes are one per item in
order and no failure record is produced. -/
theorem filterMap_all_decodable (rot : Int → PImage → PImage) (angle : Int)
    (r : Rect) :
    ∀ files : List UploadedFile, (∀ f ∈ files, f.content ≠ none) →
      (files.filterMap (processItem rot angle r)).map ArchiveEntry.name =
        files.map (fun f => outName f.name) ∧
      files.filterMap (failKey rot angle r) = [] := by
  intro files
  induction files with
  | nil => intro _; simp
  | cons f fs ih =>
    intro h
    obtain ⟨img, himg⟩ : ∃ img, f.content = some img := by
      cases hc : f.content with
      | none => exact absurd hc (h f (List.mem_cons_self f fs))
      | some i => exact ⟨i, rfl⟩
    have hpi : processItem rot angle r f =
        some { name := outName f.name, fmt := resolveFormat f.type
               img := applyTransform rot angle r img } := by
      rw [processItem, himg]
    have hk : failKey rot angle r f = none := by rw [failKey, hpi]
    have ih2 := ih (fun g hg => h g (List.mem_cons_of_mem f hg))
    simp only [List.filterMap_cons, hpi, hk, List.map_cons]
    exact ⟨by rw [ih2.1], ih2.2⟩

end Crop

namespace Crop

/-- Claim C3: format resolution maps a declared media type by taking the
subtype after the slash, uppercasing it and normalizing JPG to JPEG, and
defaults to PNG when the declared type is absent (Python None) or empty
(falsy); in particular the four listed evaluations hold. -/
theorem claim_C3_resolveFormat :
    (∀ a b : List Char, '/' ∉ b →
      resolveFormat (some (a ++ '/' :: b)) =
        (if pyUpper b = "JPG".data then "JPEG".data else pyUpper b)) ∧
    resolveFormat none = "PNG".data ∧
    resolveFormat (some []) = "PNG".data ∧
    resolveFormat (some "image/jpg".data) = "JPEG".data ∧
    resolveFormat (some "image/png".data) = "PNG".data ∧
    resolveFormat (some "image/jpeg".data) = "JPEG".data := by
  refine ⟨resolveFormat_general, rfl, by decide, by decide, by decide, by decide⟩

/-- Concrete instantiation of the general mapping clause of C3. -/
theorem claim_C3_witness :
    ('/' ∉ "jpg".data) ∧
    resolveFormat (some ("image".data ++ '/' :: "jpg".data)) =
      (if pyUpper "jpg".data = "JPG".data then "JPEG".data else pyUpper "jpg".data) :=
  ⟨by decide, claim_C3_resolveFormat.1 "image".data "jpg".data (by decide)⟩

/-- Claim C5: the Geometry Validator rejects a rectangle exactly when
right is at most left or bottom is at most top — rejecting (10,10,10,20)
and (10,10,20,5), accepting (0,0,100,100) — and nothing clamps: the crop
size is determined by the rectangle alone, independent of the image. -/
theorem claim_C5_validator :
    validRect { left := 10, top := 10, right := 10, bottom := 20 } = false ∧
    validRect { left := 10, top := 10, right := 20, bottom := 5 } = false ∧
    validRect { left := 0, top := 0, right := 100, bottom := 100 } = true ∧
    (∀ r : Rect, validRect r = true ↔ (r.right > r.left ∧ r.bottom > r.top)) ∧
    (∀ (img : PImage) (r : Rect),
      (pilCrop img r).width = (r.right - r.left).toNat ∧
      (pilCrop img r).height = (r.bottom - r.top).toNat) :=
  ⟨by decide, by decide, by decide, validRect_true_iff, fun _ _ => ⟨rfl, rfl⟩⟩

/-- Concrete instantiation of the universal clauses of C5. -/
theorem claim_C5_witness :
    (validRect { left := 1, top := 2, right := 3, bottom := 4 } = true ↔
      ((3 : Int) > 1 ∧ (4 : Int) > 2)) ∧
    (pilCrop img2x2 rectBig).width = ((10 : Int) - 0).toNat :=
  ⟨claim_C5_validator.2.2.2.1 { left := 1, top := 2, right := 3, bottom := 4 },
   (claim_C5_validator.2.2.2.2 img2x2 rectBig).1⟩

/-- Claim C4: for every rectangle with right greater than left and bottom
greater than top, lying within the image bounds, the transform at angle 0
yields an image of exactly size (right-left, bottom-top). -/
theorem claim_C4_cropSize (rot : Int → PImage → PImage) (img : PImage) (r : Rect)
    (h1 : 0 ≤ r.left) (h2 : r.left < r.right) (h3 : r.right ≤ (img.width : Int))
    (h4 : 0 ≤ r.top) (h5 : r.top < r.bottom)
    (h6 : r.bottom ≤ (img.height : Int)) :
    ((applyTransform rot 0 r img).width : Int) = r.right - r.left ∧
    ((applyTransform rot 0 r img).height : Int) = r.bottom - r.top := by
  constructor
  · show (((r.right - r.left).toNat : Nat) : Int) = r.right - r.left
    omega
  · show (((r.bottom - r.top).toNat : Nat) : Int) = r.bottom - r.top
    omega

/-- Concrete instantiation of C4: the (10,10,60,60) crop of a 100x100
image at angle 0 measures 50 by 50. -/
theorem claim_C4_witness :
    ((applyTransform demoRot 0 rect5060 img100).width : Int) =
      rect5060.right - rect5060.left ∧
    ((applyTransform demoRot 0 rect5060 img100).height : Int) =
      rect5060.bottom - rect5060.top :=
  claim_C4_cropSize demoRot img100 rect5060 (by decide) (by decide) (by decide)
    (by decide) (by decide) (by decide)

/-- Claim C7: for every angle in the slider range, a nonzero angle makes
the engine invoke the rotation primitive with the negated angle and
canvas expansion enabled, before the crop, while angle 0 performs no
rotation at all — the image reaches the crop untouched, whatever the
rotation primitive is. -/
theorem claim_C7_rotation (rot : Int → PImage → PImage) (angle : Int) (r : Rect)
    (img : PImage) (hlo : -180 ≤ angle) (hhi : angle ≤ 180) :
    (angle = 0 → transformTrace angle r = [PrimOp.cropOp r] ∧
      applyTransform rot angle r img = pilCrop img r) ∧
    (angle ≠ 0 →
      transformTrace angle r = [PrimOp.rotateOp (-angle) true, PrimOp.cropOp r] ∧
      applyTransform rot angle r img = pilCrop (rot (-angle) img) r) := by
  constructor
  · intro h
    subst h
    exact ⟨rfl, rfl⟩
  · intro h
    exact ⟨by simp [transformTrace, h], by simp [applyTransform, h]⟩

/-- Concrete instantiation of C7 at angle 5. -/
theorem claim_C7_witness :
    transformTrace 5 rect5060 =
      [PrimOp.rotateOp (-5) true, PrimOp.cropOp rect5060] ∧
    applyTransform demoRot 5 rect5060 img2x2 =
      pilCrop (demoRot (-5) img2x2) rect5060 :=
  (claim_C7_rotation demoRot 5 rect5060 img2x2 (by decide) (by decide)).2 (by decide)

end Crop

namespace Crop

/-- Claim C9: the per-item transform is a deterministic pure function of
(image, angle, rectangle).  Determinism of a Lean function is
definitional; the substantive content proved here is the absence of
shared mutable state: the imperative batch loop with its accumulated
zip-and-errors state computes exactly an independent pure map over the
items, and consequently splits over concatenation of batches — no item's
result (dimensions included) depends on sibling items or on any carried
state. -/
theorem claim_C9_purity (rot : Int → PImage → PImage) (angle : Int) (r : Rect) :
    (∀ files : List UploadedFile,
      runBatch rot angle r files =
        (files.filterMap (processItem rot angle r),
         files.filterMap (failKey rot angle r))) ∧
    (∀ fs1 fs2 : List UploadedFile,
      runBatch rot angle r (fs1 ++ fs2) =
        ((runBatch rot angle r fs1).1 ++ (runBatch rot angle r fs2).1,
         (runBatch rot angle r fs1).2 ++ (runBatch rot angle r fs2).2)) := by
  refine ⟨runBatch_decomp rot angle r, ?_⟩
  intro fs1 fs2
  simp [runBatch_decomp, List.filterMap_append]

/-- Concrete instantiation of C9 on a two-item batch. -/
theorem claim_C9_witness :
    runBatch demoRot 0 rect5060 [fileA, fileBad] =
      ([fileA, fileBad].filterMap (processItem demoRot 0 rect5060),
       [fileA, fileBad].filterMap (failKey demoRot 0 rect5060)) :=
  (claim_C9_purity demoRot 0 rect5060).1 [fileA, fileBad]

/-- Claim C6: an invalid shared rectangle is fatal to starting the batch —
the handler returns the invalid-rectangle outcome, no item is processed
and no archive is produced — while under a valid rectangle every item is
accounted for: per-item failures never remove sibling items from the
run. -/
theorem claim_C6_fatalValidation (rot : Int → PImage → PImage) (angle : Int)
    (r : Rect) (files : List UploadedFile) :
    (validRect r = false → cropAll rot angle r files = BatchOutcome.invalidRect) ∧
    (validRect r = true →
      cropAll rot angle r files =
        BatchOutcome.completed (files.filterMap (processItem rot angle r))
          (files.filterMap (failKey rot angle r)) ∧
      (files.filterMap (processItem rot angle r)).length +
        (files.filterMap (failKey rot angle r)).length = files.length) := by
  constructor
  · intro h
    rw [cropAll, if_pos ((validRect_false_iff r).mp h)]
  · intro h
    have hv := (validRect_true_iff r).mp h
    have hneg : ¬(r.right ≤ r.left ∨ r.bottom ≤ r.top) := by omega
    refine ⟨?_, entries_add_errors_length rot angle r files⟩
    rw [cropAll, if_neg hneg, runBatch_decomp]

/-- Concrete instantiation of C6: the degenerate rectangle (10,10,10,20)
stops the batch before any processing; the valid rectangle (10,10,60,60)
lets it complete. -/
theorem claim_C6_witness :
    cropAll demoRot 0 { left := 10, top := 10, right := 10, bottom := 20 }
      [fileA] = BatchOutcome.invalidRect ∧
    cropAll demoRot 0 rect5060 [fileA] =
      BatchOutcome.completed ([fileA].filterMap (processItem demoRot 0 rect5060))
        ([fileA].filterMap (failKey demoRot 0 rect5060)) :=
  ⟨(claim_C6_fatalValidation demoRot 0
      { left := 10, top := 10, right := 10, bottom := 20 } [fileA]).1 (by decide),
   ((claim_C6_fatalValidation demoRot 0 rect5060 [fileA]).2 (by decide)).1⟩

/-- Claim C8: every successfully processed input contributes exactly one
archive entry, named by the input's stem followed by the token _Cropped
followed by the input's original extension; a fully decodable batch
yields one entry per input, in order, and no error. -/
theorem claim_C8_naming (rot : Int → PImage → PImage) (angle : Int) (r : Rect)
    (files : List UploadedFile) (h : ∀ f ∈ files, f.content ≠ none) :
    (runBatch rot angle r files).1.map ArchiveEntry.name =
      files.map (fun f => outName f.name) ∧
    (runBatch rot angle r files).1.length = files.length ∧
    (runBatch rot angle r files).2 = [] := by
  have hd := runBatch_decomp rot angle r files
  have hmain := filterMap_all_decodable rot angle r files h
  refine ⟨by rw [hd]; exact hmain.1, ?_, by rw [hd]; exact hmain.2⟩
  have hlen : ((files.filterMap (processItem rot angle r)).map
      ArchiveEntry.name).length = (files.map (fun f => outName f.name)).length := by
    rw [hmain.1]
  rw [hd]
  simpa using hlen

/-- The end-to-end example of C8: three 100x100 PNG inputs with rectangle
(10,10,60,60) at angle 0 give three 50x50 PNG entries with the derived
names, and no error. -/
theorem claim_C8_witness :
    (runBatch demoRot 0 rect5060 [fileA, fileB, fileC]).1.map ArchiveEntry.name =
      [fileA, fileB, fileC].map (fun f => outName f.name) ∧
    [fileA, fileB, fileC].map (fun f => outName f.name) =
      ["a_Cropped.png".data, "b_Cropped.png".data, "c_Cropped.png".data] ∧
    (runBatch demoRot 0 rect5060 [fileA, fileB, fileC]).1.map
        (fun e => (e.fmt, e.img.width, e.img.height)) =
      [("PNG".data, 50, 50), ("PNG".data, 50, 50), ("PNG".data, 50, 50)] ∧
    (runBatch demoRot 0 rect5060 [fileA, fileB, fileC]).1.length = 3 ∧
    (runBatch demoRot 0 rect5060 [fileA, fileB, fileC]).2 = [] :=
  ⟨(claim_C8_naming demoRot 0 rect5060 [fileA, fileB, fileC] (by decide)).1,
   by decide, by decide,
   (claim_C8_naming demoRot 0 rect5060 [fileA, fileB, fileC] (by decide)).2.1,
   (claim_C8_naming demoRot 0 rect5060 [fileA, fileB, fileC] (by decide)).2.2⟩

/-- Claim C10: two batch items sharing one filename that both succeed
yield two separate archive entries bearing the identical derived name —
appended in job order, neither rejected nor collapsed, with no error
recorded (the zip writer appends entries even under duplicate names). -/
theorem claim_C10_duplicates (rot : Int → PImage → PImage) (angle : Int)
    (r : Rect) (f1 f2 : UploadedFile) (i1 i2 : PImage) (hn : f1.name = f2.name)
    (h1 : f1.content = some i1) (h2 : f2.content = some i2) :
    (runBatch rot angle r [f1, f2]).1.length = 2 ∧
    (runBatch rot angle r [f1, f2]).2 = [] ∧
    (runBatch rot angle r [f1, f2]).1.map ArchiveEntry.name =
      [outName f1.name, outName f1.name] := by
  have hp1 : processItem rot angle r f1 =
      some { name := outName f1.name, fmt := resolveFormat f1.type
             img := applyTransform rot angle r i1 } := by
    rw [processItem, h1]
  have hp2 : processItem rot angle r f2 =
      some { name := outName f2.name, fmt := resolveFormat f2.type
             img := applyTransform rot angle r i2 } := by
    rw [processItem, h2]
  have hk1 : failKey rot angle r f1 = none := by rw [failKey, hp1]
  have hk2 : failKey rot angle r f2 = none := by rw [failKey, hp2]
  have hd := runBatch_decomp rot angle r [f1, f2]
  rw [hd]
  simp [List.filterMap_cons, hp1, hp2, hk1, hk2, hn]

/-- Concrete instantiation of C10: two uploads both named dup.png produce
two entries both named dup_Cropped.png. -/
theorem claim_C10_witness :
    (runBatch demoRot 0 rect5060 [fileDup1, fileDup2]).1.length = 2 ∧
    (runBatch demoRot 0 rect5060 [fileDup1, fileDup2]).2 = [] ∧
    (runBatch demoRot 0 rect5060 [fileDup1, fileDup2]).1.map ArchiveEntry.name =
      [outName fileDup1.name, outName fileDup1.name] :=
  claim_C10_duplicates demoRot 0 rect5060 fileDup1 fileDup2 img100 img2x2
    (by decide) (by decide) (by decide)

end Crop

namespace Crop

/-- Claim C1 as stated is false at a concrete batch: with three images
whose second fails to decode, the loop does record the per-item error and
still produces the two other entries, but the run's end-of-run
user-visible status is the unconditional completion banner, which does
not name (or even contain) the failed item — there is no final summary
naming the failed items. -/
theorem claim_C1_counterexample :
    (runBatch demoRot 0 rect5060 [fileA, fileBad, fileC]).1.length = 2 ∧
    (runBatch demoRot 0 rect5060 [fileA, fileBad, fileC]).2 = ["b2.png".data] ∧
    runSummary = "Processing Complete!".data ∧
    ¬ ("b2.png".data <:+: runSummary) := by
  refine ⟨by decide, by decide, rfl, by decide⟩

/-- Claim C1 (amended): batch processing has partial-failure semantics —
when an item fails, a per-item error record keyed by that item's name is
kept (the code prints it to the server console), the remaining items are
still processed, and the archive contains every item that succeeded; the
end-of-run user-visible status, however, is an unconditional completion
banner that does not name the failed items.  For a batch of 3 images
where item 2 fails to decode, the run returns 2 archive entries and 1
recorded error. -/
theorem claim_C1_partialFailure (rot : Int → PImage → PImage) (angle : Int)
    (r : Rect) :
    (∀ files : List UploadedFile,
      (runBatch rot angle r files).1.length +
        (runBatch rot angle r files).2.length = files.length) ∧
    (∀ files : List UploadedFile,
      (runBatch rot angle r files).2 = files.filterMap (failKey rot angle r)) ∧
    (∀ (f1 f2 f3 : UploadedFile) (i1 i3 : PImage),
      f1.content = some i1 → f2.content = none → f3.content = some i3 →
      (runBatch rot angle r [f1, f2, f3]).1.length = 2 ∧
      (runBatch rot angle r [f1, f2, f3]).2 = [f2.name]) := by
  refine ⟨?_, ?_, ?_⟩
  · intro files
    rw [runBatch_decomp]
    exact entries_add_errors_length rot angle r files
  · intro files
    rw [runBatch_decomp]
  · intro f1 f2 f3 i1 i3 h1 h2 h3
    have hp1 : processItem rot angle r f1 =
        some { name := outName f1.name, fmt := resolveFormat f1.type
               img := applyTransform rot angle r i1 } := by
      rw [processItem, h1]
    have hp2 : processItem rot angle r f2 = none := by rw [processItem, h2]
    have hp3 : processItem rot angle r f3 =
        some { name := outName f3.name, fmt := resolveFormat f3.type
               img := applyTransform rot angle r i3 } := by
      rw [processItem, h3]
    have hk1 : failKey rot angle r f1 = none := by rw [failKey, hp1]
    have hk2 : failKey rot angle r f2 = some f2.name := by rw [failKey, hp2]
    have hk3 : failKey rot angle r f3 = none := by rw [failKey, hp3]
    rw [runBatch_decomp]
    simp [List.filterMap_cons, hp1, hp2, hp3, hk1, hk2, hk3]

/-- Concrete instantiation of the amended C1 on the 3-image batch whose
second item fails to decode. -/
theorem claim_C1_witness :
    (runBatch demoRot 0 rect5060 [fileA, fileBad, fileC]).1.length = 2 ∧
    (runBatch demoRot 0 rect5060 [fileA, fileBad, fileC]).2 = [fileBad.name] :=
  (claim_C1_partialFailure demoRot 0 rect5060).2.2 fileA fileBad fileC img100
    img100 (by decide) (by decide) (by decide)

/-- Claim C2 as stated is false at a concrete input: cropping a decodable
2x2 image with the shared rectangle (0,0,10,10) — far beyond its bounds —
records no error at all; the item succeeds with a 10x10 entry whose
out-of-source region is zero padding (pixel (0,0) is copied, pixel (5,5)
is padding), so there is no OutOfBounds failure, caught or otherwise. -/
theorem claim_C2_counterexample :
    (runBatch demoRot 0 rectBig [fileSmall]).2 = [] ∧
    (runBatch demoRot 0 rectBig [fileSmall]).1.map
        (fun e => (e.img.width, e.img.height)) = [(10, 10)] ∧
    getPx (pilCrop img2x2 rectBig) 0 0 = 1 ∧
    getPx (pilCrop img2x2 rectBig) 5 5 = 0 := by
  refine ⟨by decide, by decide, by decide, by decide⟩

/-- Claim C2 (amended): for every image whose post-rotation dimensions
make the shared crop rectangle exceed the image bounds, the Transform
Engine does not fail: PIL's crop silently pads — the item still succeeds
with an archive entry of exactly the requested size (right-left,
bottom-top), pixels inside the crop read from the source offset by the
rectangle corner (and read 0, black padding, where that falls outside the
source), and no per-item error is recorded. -/
theorem claim_C2_outOfBounds (rot : Int → PImage → PImage) (angle : Int)
    (r : Rect) (f : UploadedFile) (img pimg : PImage)
    (hc : f.content = some img)
    (hp : pimg = if angle ≠ 0 then rot (-angle) img else img)
    (hv : validRect r = true)
    (hoob : (pimg.width : Int) < r.right ∨ (pimg.height : Int) < r.bottom ∨
      r.left < 0 ∨ r.top < 0) :
    processItem rot angle r f =
      some { name := outName f.name, fmt := resolveFormat f.type
             img := pilCrop pimg r } ∧
    failKey rot angle r f = none ∧
    ((pilCrop pimg r).width : Int) = r.right - r.left ∧
    ((pilCrop pimg r).height : Int) = r.bottom - r.top ∧
    (∀ x y : Int, 0 ≤ x → x < r.right - r.left → 0 ≤ y → y < r.bottom - r.top →
      getPx (pilCrop pimg r) x y = getPx pimg (r.left + x) (r.top + y)) := by
  have hv2 := (validRect_true_iff r).mp hv
  have hpi : processItem rot angle r f =
      some { name := outName f.name, fmt := resolveFormat f.type
             img := pilCrop pimg r } := by
    simp only [processItem, hc, applyTransform]
    rw [hp]
  refine ⟨hpi, by rw [failKey, hpi], ?_, ?_,
    fun x y hx0 hx hy0 hy => getPx_pilCrop pimg r x y hx0 hx hy0 hy⟩
  · show (((r.right - r.left).toNat : Nat) : Int) = r.right - r.left
    omega
  · show (((r.bottom - r.top).toNat : Nat) : Int) = r.bottom - r.top
    omega

/-- Concrete instantiation of the amended C2: the 2x2 image against
rectangle (0,0,10,10). -/
theorem claim_C2_witness :
    processItem demoRot 0 rectBig fileSmall =
      some { name := outName fileSmall.name, fmt := resolveFormat fileSmall.type
             img := pilCrop img2x2 rectBig } ∧
    failKey demoRot 0 rectBig fileSmall = none ∧
    ((pilCrop img2x2 rectBig).width : Int) = rectBig.right - rectBig.left ∧
    ((pilCrop img2x2 rectBig).height : Int) = rectBig.bottom - rectBig.top ∧
    (∀ x y : Int, 0 ≤ x → x < rectBig.right - rectBig.left → 0 ≤ y →
      y < rectBig.bottom - rectBig.top →
      getPx (pilCrop img2x2 rectBig) x y = getPx img2x2 (rectBig.left + x) (rectBig.top + y)) :=
  claim_C2_outOfBounds demoRot 0 rectBig fileSmall img2x2 img2x2 (by decide)
    (by decide) (by decide) (by decide)

end Crop
